import Mathlib

/-!
Verification of the security core of the `feen` repository: the scope
authorizer (`hasRequiredScope`) and the request signer (`generateSignature`).
The repository sources contain the unit tests of these functions
(`src/lib/__tests__/security.test.ts`) but not the implementation modules
themselves (`src/lib/security/token-scopes.ts`,
`src/lib/security/request-signing.ts`), so the definitions below are modelled
from the specification and checked against the behaviour the tests pin down.
-/

namespace Feen

/-- Modelled from the spec: the implementation module
`src/lib/security/token-scopes.ts` is absent from the sources (only its test
imports `TokenScope`).  Spec §3: a Scope is "an enumerated capability
identifier (e.g., ALL, CHAT_READ, CHAT_WRITE, and similarly named pairs for
other resource categories). ALL is a universal wildcard satisfying any
requirement." -/
inductive TokenScope where
  | ALL
  | CHAT_READ
  | CHAT_WRITE
  | EMBEDDINGS_READ
  | EMBEDDINGS_WRITE
  | MODELS_READ
  deriving DecidableEq, Repr

/-- Modelled from the spec: §3 RouteScopeRule, "a static mapping from
(path pattern, HTTP method) to the set of scopes of which at least one must
be present in the token's scope set". -/
structure RouteScopeRule where
  path : String
  method : String
  requiredScopes : List TokenScope
  deriving DecidableEq, Repr

/-- Modelled from the spec: §6 "the RouteScopeRule table ... is compiled-in
static configuration".  The POST `/v1/chat/completions` entry is fixed by the
tests (CHAT_WRITE grants access, CHAT_READ alone does not); the remaining
entries follow §3's "similarly named pairs for other resource categories". -/
def routeScopeRules : List RouteScopeRule :=
  [ ⟨"/v1/chat/completions", "POST", [TokenScope.CHAT_WRITE]⟩,
    ⟨"/v1/embeddings", "POST", [TokenScope.EMBEDDINGS_WRITE]⟩,
    ⟨"/v1/models", "GET", [TokenScope.MODELS_READ]⟩ ]

/-- Modelled from the spec: §3 AuthorizationResult, "a value holding
`allowed: boolean` and `requiredScopes: ordered sequence of Scope`". -/
structure AuthorizationResult where
  allowed : Bool
  requiredScopes : List TokenScope
  deriving DecidableEq, Repr

/-- Modelled from the spec: §4.1, "look up the RouteScopeRule whose pattern
matches `path` and whose method equals `method`"; §9 models the table as "a
finite, statically constructed table ... checked in order". -/
def findRouteRule (path method : String) : Option RouteScopeRule :=
  routeScopeRules.find? fun rule => rule.path == path && rule.method == method

/-- Modelled from the spec: §4.1 `hasRequiredScope(tokenScopes, path, method)`.
"allowed = true if ALL is present in tokenScopes, OR if the intersection of
tokenScopes and the rule's required-scope set is non-empty. Otherwise
allowed = false"; `requiredScopes` "is always the rule's full required-scope
set ... independent of the outcome".  §7 UnknownRoute: when no rule matches
the policy is deny-by-default with empty `requiredScopes`, as the spec
directs for an auth-critical gate.  Per §9 the ALL wildcard is a dedicated
case checked first. -/
def hasRequiredScope (tokenScopes : List TokenScope) (path method : String) :
    AuthorizationResult :=
  match findRouteRule path method with
  | none => ⟨false, []⟩
  | some rule =>
      if TokenScope.ALL ∈ tokenScopes then
        ⟨true, rule.requiredScopes⟩
      else
        ⟨decide (∃ s ∈ tokenScopes, s ∈ rule.requiredScopes), rule.requiredScopes⟩

/-- Modelled from the spec: §3 SignaturePayload, "the canonical fields
committed to a signature — timestamp (integer, epoch milliseconds), HTTP
method, request path, content hash ..., token identifier, and a per-request
nonce". -/
structure SignaturePayload where
  timestamp : Int
  method : String
  path : String
  bodyHash : String
  tokenId : String
  nonce : String
  deriving DecidableEq, Repr

/-- Modelled from the spec: §4.2 canonicalization, "serialize the payload's
fields into a fixed, unambiguous order (e.g.,
timestamp|method|path|bodyHash|tokenId|nonce joined by a delimiter)".
The grouping of the appends is chosen so the path field sits between two
fixed flanks, which the sensitivity proofs exploit. -/
def canonicalize (payload : SignaturePayload) : String :=
  (toString payload.timestamp ++ "|" ++ payload.method ++ "|") ++
    payload.path ++
    ("|" ++ payload.bodyHash ++ "|" ++ payload.tokenId ++ "|" ++ payload.nonce)

/-- Modelled from the spec: §4.2 digest, "compute a keyed message
authentication code (HMAC-class construction) over the canonical byte
sequence using `secret` as the key".  The implementation module is absent
from the sources, so the keyed digest is modelled symbolically (ideal-MAC
style) as a deterministic pairing of key and message that is injective in
each argument — exactly the guarantee §3 assumes of it: "any single-field
change ... must change the output with overwhelming probability". -/
def keyedDigest (secret message : String) : String :=
  (secret ++ ":") ++ message

/-- Modelled from the spec: §4.2
`generateSignature(payload, secret) -> signatureString`: canonicalize, then
apply the keyed digest with `secret` as the key. -/
def generateSignature (payload : SignaturePayload) (secret : String) : String :=
  keyedDigest secret (canonicalize payload)

/-- The concrete payload used by the determinism and sensitivity tests in
`security.test.ts`. -/
def testPayloadChat : SignaturePayload :=
  ⟨1234567890, "POST", "/api/proxy/chat", "abc123", "token-123", "nonce-456"⟩

/-- The same payload with only the `path` field changed, as in the
"different signatures for different inputs" test. -/
def testPayloadEmbeddings : SignaturePayload :=
  ⟨1234567890, "POST", "/api/proxy/embeddings", "abc123", "token-123", "nonce-456"⟩

/-- The shared secret used throughout `security.test.ts`. -/
def testSecret : String := "test-secret-key-12345"

theorem str_append_left_cancel {a x y : String} (h : a ++ x = a ++ y) :
    x = y := by
  apply String.ext
  have hd : a.data ++ x.data = a.data ++ y.data := by
    simpa [String.data_append] using congrArg String.data h
  exact List.append_cancel_left hd

theorem str_append_right_cancel {x y b : String} (h : x ++ b = y ++ b) :
    x = y := by
  apply String.ext
  have hd : x.data ++ b.data = y.data ++ b.data := by
    simpa [String.data_append] using congrArg String.data h
  exact List.append_cancel_right hd

theorem str_append_middle_cancel {a b x y : String}
    (h : (a ++ x) ++ b = (a ++ y) ++ b) : x = y :=
  str_append_left_cancel (str_append_right_cancel h)

theorem keyedDigest_message_inj {secret m1 m2 : String}
    (h : keyedDigest secret m1 = keyedDigest secret m2) : m1 = m2 :=
  str_append_left_cancel h

theorem keyedDigest_key_inj {s1 s2 message : String}
    (h : keyedDigest s1 message = keyedDigest s2 message) : s1 = s2 :=
  str_append_right_cancel (str_append_right_cancel h)

theorem canonicalize_path_inj {p1 p2 : SignaturePayload}
    (ht : p1.timestamp = p2.timestamp) (hm : p1.method = p2.method)
    (hb : p1.bodyHash = p2.bodyHash) (hk : p1.tokenId = p2.tokenId)
    (hn : p1.nonce = p2.nonce)
    (h : canonicalize p1 = canonicalize p2) : p1.path = p2.path := by
  unfold canonicalize at h
  rw [ht, hm, hb, hk, hn] at h
  exact str_append_middle_cancel h

theorem requiredScopes_nonempty_in_table :
    ∀ rule ∈ routeScopeRules, rule.requiredScopes ≠ [] := by decide

end Feen

namespace Feen

/-- C1: for every token scope set containing the ALL scope and every
(path, method) pair with a defined RouteScopeRule, `hasRequiredScope`
returns a result with `allowed = true`. -/
theorem all_scope_allows (tokenScopes : List TokenScope) (path method : String)
    (hall : TokenScope.ALL ∈ tokenScopes)
    (hdef : (findRouteRule path method).isSome = true) :
    (hasRequiredScope tokenScopes path method).allowed = true := by
  unfold hasRequiredScope
  cases hfind : findRouteRule path method with
  | none => rw [hfind] at hdef; simp at hdef
  | some rule => simp [hall]

/-- C1 witness: a token holding exactly ALL is allowed for
POST `/v1/chat/completions`, as in the first test of `security.test.ts`. -/
theorem all_scope_allows_witness :
    (hasRequiredScope [TokenScope.ALL] "/v1/chat/completions" "POST").allowed
      = true :=
  all_scope_allows [TokenScope.ALL] "/v1/chat/completions" "POST"
    (by decide) (by decide)

/-- C2: for every defined route, a token scope set containing at least one
scope of the route's required-scope set yields `allowed = true` (required
scopes are an OR-set). -/
theorem matching_scope_allows (tokenScopes : List TokenScope)
    (path method : String) (rule : RouteScopeRule)
    (hfind : findRouteRule path method = some rule)
    (hex : ∃ s ∈ tokenScopes, s ∈ rule.requiredScopes) :
    (hasRequiredScope tokenScopes path method).allowed = true := by
  unfold hasRequiredScope
  rw [hfind]
  by_cases hall : TokenScope.ALL ∈ tokenScopes
  · simp [hall]
  · simp only [hall, if_false]
    simpa using hex

/-- C2 witness: a token holding exactly CHAT_WRITE is allowed for
POST `/v1/chat/completions`, as in the second test of `security.test.ts`. -/
theorem matching_scope_allows_witness :
    (hasRequiredScope [TokenScope.CHAT_WRITE] "/v1/chat/completions" "POST").allowed
      = true :=
  matching_scope_allows [TokenScope.CHAT_WRITE] "/v1/chat/completions" "POST"
    ⟨"/v1/chat/completions", "POST", [TokenScope.CHAT_WRITE]⟩
    (by decide) (by decide)

/-- C3: for every defined route, a token scope set without ALL and with empty
intersection with the route's required-scope set yields `allowed = false`. -/
theorem missing_scope_denies (tokenScopes : List TokenScope)
    (path method : String) (rule : RouteScopeRule)
    (hfind : findRouteRule path method = some rule)
    (hall : TokenScope.ALL ∉ tokenScopes)
    (hdisj : ∀ s ∈ tokenScopes, s ∉ rule.requiredScopes) :
    (hasRequiredScope tokenScopes path method).allowed = false := by
  unfold hasRequiredScope
  rw [hfind]
  simp only [hall, if_false]
  simpa using hdisj

/-- C3 witness: a token holding only CHAT_READ is denied for
POST `/v1/chat/completions`, as in the third test of `security.test.ts`. -/
theorem missing_scope_denies_witness :
    (hasRequiredScope [TokenScope.CHAT_READ] "/v1/chat/completions" "POST").allowed
      = false :=
  missing_scope_denies [TokenScope.CHAT_READ] "/v1/chat/completions" "POST"
    ⟨"/v1/chat/completions", "POST", [TokenScope.CHAT_WRITE]⟩
    (by decide) (by decide) (by decide)

/-- C4: for every (path, method) pair with a defined RouteScopeRule, the
`requiredScopes` field of the result equals the matched rule's full
required-scope set and is non-empty, independently of `allowed`. -/
theorem requiredScopes_reflects_rule (tokenScopes : List TokenScope)
    (path method : String) (rule : RouteScopeRule)
    (hfind : findRouteRule path method = some rule) :
    (hasRequiredScope tokenScopes path method).requiredScopes
        = rule.requiredScopes
      ∧ rule.requiredScopes ≠ [] := by
  constructor
  · unfold hasRequiredScope
    rw [hfind]
    by_cases hall : TokenScope.ALL ∈ tokenScopes <;> simp [hall]
  · exact requiredScopes_nonempty_in_table rule
      (List.mem_of_find?_eq_some hfind)

/-- C4 witness: for the denied CHAT_READ request of the fourth test, the
result still carries the rule's non-empty required-scope set. -/
theorem requiredScopes_reflects_rule_witness :
    (hasRequiredScope [TokenScope.CHAT_READ] "/v1/chat/completions" "POST").requiredScopes
        = [TokenScope.CHAT_WRITE]
      ∧ ([TokenScope.CHAT_WRITE] : List TokenScope) ≠ [] :=
  requiredScopes_reflects_rule [TokenScope.CHAT_READ] "/v1/chat/completions"
    "POST" ⟨"/v1/chat/completions", "POST", [TokenScope.CHAT_WRITE]⟩ (by decide)

/-- C5: for every (path, method) pair with no matching RouteScopeRule,
`hasRequiredScope` denies the request with empty `requiredScopes`
(deny-by-default). -/
theorem unknown_route_denies (tokenScopes : List TokenScope)
    (path method : String)
    (hfind : findRouteRule path method = none) :
    hasRequiredScope tokenScopes path method
      = ⟨false, []⟩ := by
  unfold hasRequiredScope
  rw [hfind]

/-- C5 witness: an unmapped route is denied with empty `requiredScopes`
even for a token holding ALL. -/
theorem unknown_route_denies_witness :
    hasRequiredScope [TokenScope.ALL] "/v1/unmapped" "DELETE"
      = ⟨false, []⟩ :=
  unknown_route_denies [TokenScope.ALL] "/v1/unmapped" "DELETE" (by decide)

/-- C6: `generateSignature` is a pure function of (payload, secret): any two
calls with identical arguments return identical signature strings. -/
theorem generateSignature_deterministic (p1 p2 : SignaturePayload)
    (s1 s2 : String) (hp : p1 = p2) (hs : s1 = s2) :
    generateSignature p1 s1 = generateSignature p2 s2 := by
  rw [hp, hs]

/-- C6 witness: the payload of the "consistent signatures" test signed twice
with the test secret yields the same string. -/
theorem generateSignature_deterministic_witness :
    generateSignature testPayloadChat testSecret
      = generateSignature testPayloadChat testSecret :=
  generateSignature_deterministic testPayloadChat testPayloadChat
    testSecret testSecret rfl rfl

/-- C7: two payloads agreeing on timestamp, method, bodyHash, tokenId and
nonce but differing in path yield different signatures under the same
secret. -/
theorem signature_path_sensitive (p1 p2 : SignaturePayload) (secret : String)
    (ht : p1.timestamp = p2.timestamp) (hm : p1.method = p2.method)
    (hb : p1.bodyHash = p2.bodyHash) (hk : p1.tokenId = p2.tokenId)
    (hn : p1.nonce = p2.nonce) (hp : p1.path ≠ p2.path) :
    generateSignature p1 secret ≠ generateSignature p2 secret := by
  intro h
  exact hp (canonicalize_path_inj ht hm hb hk hn (keyedDigest_message_inj h))

/-- C7 witness: the two payloads of the "different signatures" test, which
differ only in path (`/api/proxy/chat` versus `/api/proxy/embeddings`),
produce different signatures under the test secret. -/
theorem signature_path_sensitive_witness :
    generateSignature testPayloadChat testSecret
      ≠ generateSignature testPayloadEmbeddings testSecret :=
  signature_path_sensitive testPayloadChat testPayloadEmbeddings testSecret
    rfl rfl rfl rfl rfl (by decide)

/-- C8: for every fixed payload, two different secrets yield different
signature strings (key sensitivity). -/
theorem signature_key_sensitive (payload : SignaturePayload)
    (s1 s2 : String) (hs : s1 ≠ s2) :
    generateSignature payload s1 ≠ generateSignature payload s2 := by
  intro h
  exact hs (keyedDigest_key_inj h)

/-- C8 witness: the test payload signed with the test secret and with a
different secret yields different signatures. -/
theorem signature_key_sensitive_witness :
    generateSignature testPayloadChat testSecret
      ≠ generateSignature testPayloadChat "other-secret-key" :=
  signature_key_sensitive testPayloadChat testSecret "other-secret-key"
    (by decide)

/-- C9: for every payload and secret, `generateSignature` returns a
non-empty string (and, being a total function, never fails). -/
theorem signature_nonempty (payload : SignaturePayload) (secret : String) :
    0 < (generateSignature payload secret).length := by
  have h1 : (":" : String).length = 1 := rfl
  unfold generateSignature keyedDigest
  simp only [String.length_append, h1]
  omega

/-- C10: `hasRequiredScope` is a pure function of its inputs and the static
route table: any two calls with identical arguments return the same
AuthorizationResult. -/
theorem hasRequiredScope_deterministic (ts1 ts2 : List TokenScope)
    (p1 p2 m1 m2 : String) (hts : ts1 = ts2) (hp : p1 = p2) (hm : m1 = m2) :
    hasRequiredScope ts1 p1 m1 = hasRequiredScope ts2 p2 m2 := by
  rw [hts, hp, hm]

/-- C10 witness: two identical calls on the first test's arguments return
the same result. -/
theorem hasRequiredScope_deterministic_witness :
    hasRequiredScope [TokenScope.ALL] "/v1/chat/completions" "POST"
      = hasRequiredScope [TokenScope.ALL] "/v1/chat/completions" "POST" :=
  hasRequiredScope_deterministic [TokenScope.ALL] [TokenScope.ALL]
    "/v1/chat/completions" "/v1/chat/completions" "POST" "POST" rfl rfl rfl

end Feen
